import Mathlib

/-!
Shallow embedding of `src/app/app.py` and `src/load-generator/load_generator.py`
from the otel-demo repository.

Conventions of the embedding:
* Python values that flow through log fields and JSON bodies are modelled by
  the closed union `PyVal` (string, int, rational number, bool, None, list,
  dict).
* Ambient effects (wall-clock time, `random.*` draws, the Flask `g` object,
  host/platform descriptors) are lifted to explicit parameters.
* Code that can raise is modelled in `Except String`; total code is a plain
  function.
* Telemetry emission (metric instrument calls and `logger.*` calls) is
  modelled by returning the chronological list of emitted events next to the
  return value.
-/

set_option maxRecDepth 4096

/-- Closed union of the JSON-like Python values that the application passes
through log `extra_fields` and response bodies. -/
inductive PyVal where
  | str (s : String)
  | int (n : Int)
  | num (q : ℚ)
  | bool (b : Bool)
  | none
  | list (l : List PyVal)
  | obj (fields : List (String × PyVal))
deriving Repr

/-- Python `value * n` for a non-negative integer literal `n`, as it behaves on
each `PyVal` shape: numbers multiply, strings and lists replicate, booleans
coerce to 0/1, while `None` and `dict` raise `TypeError`.  This is the
semantics of `value * 1000000` in `EcsJsonFormatter.format`. -/
def pyMulNat : PyVal → Nat → Except String PyVal
  | .int i, n => .ok (.int (i * n))
  | .num q, n => .ok (.num (q * n))
  | .bool b, n => .ok (.int ((if b then (1 : Int) else 0) * n))
  | .str s, n => .ok (.str (String.join (List.replicate n s)))
  | .list l, n => .ok (.list (List.flatten (List.replicate n l)))
  | .none, _ => .error "TypeError: unsupported operand type(s) for *: NoneType and int"
  | .obj _, _ => .error "TypeError: unsupported operand type(s) for *: dict and int"

/-- Exception information attached to a Python log record (`record.exc_info`),
already rendered the way `format` consumes it: type name, message and the
formatted stack-trace lines. -/
structure ExcInfo where
  excType : String
  excMessage : String
  excStackTrace : List String
deriving Repr, DecidableEq

/-- The slice of a `logging.LogRecord` that `EcsJsonFormatter.format` reads. -/
structure LogRecord where
  levelname : String
  name : String
  pathname : String
  lineno : Nat
  funcName : String
  message : String
  module : String
  processPid : Nat
  threadId : Nat
  threadName : String
  excInfo : Option ExcInfo
  extra_fields : Option (List (String × PyVal))
deriving Repr

/-- The slice of the Flask `request` object read by the formatter. -/
structure HttpReq where
  method : String
  path : String
  queryString : String
  url : String
  contentLength : Option Nat
  xForwardedFor : Option String
  remoteAddr : String
  userAgent : Option String
deriving Repr, DecidableEq

/-- Ambient context of one `format` call: host/platform descriptors, the
current OTel span context (`none` when no valid span is active), and the
per-request state `g.request_id` plus the current Flask request (`none`
outside a request). -/
structure FormatCtx where
  hostname : String
  osPlatform : String
  osVersion : String
  deploymentEnv : String
  spanCtx : Option (Nat × Nat)
  request_id : Option String
  httpReq : Option HttpReq
deriving Repr, DecidableEq

/-- The `error` sub-object of the ECS record: created either from `exc_info`
or by promotion of the `error_type` extra field. -/
structure ErrorObj where
  errType : Option PyVal
  errMessage : Option PyVal
  stackTrace : Option (List String)
deriving Repr

/-- The `http.*` sub-object attached when a request context is present. -/
structure HttpPart where
  method : String
  bodyBytes : Nat
  urlPath : String
  urlQuery : String
  urlOriginal : String
deriving Repr, DecidableEq

/-- The `client.*` sub-object attached when a request context is present. -/
structure ClientPart where
  ip : String
  userAgent : String
deriving Repr, DecidableEq

/-- The fully built `log_record` dictionary of `EcsJsonFormatter.format`, one
field per key that the Python code can insert.  `Option` fields model keys
that are only present on some paths. -/
structure EcsRecord where
  atTimestamp : String
  ecsVersion : String
  logLevel : String
  logLogger : String
  originFile : String
  originLine : Nat
  originFunction : String
  message : String
  processPid : Nat
  threadId : Nat
  threadName : String
  hostname : String
  osPlatform : String
  osVersion : String
  osName : String
  serviceName : String
  serviceVersion : String
  serviceEnv : String
  eventCreated : String
  eventModule : String
  eventType : Option PyVal
  eventDuration : Option PyVal
  traceId : Option String
  spanId : Option String
  transactionId : Option String
  http : Option HttpPart
  client : Option ClientPart
  error : Option ErrorObj
  labels : List (String × PyVal)
deriving Repr

/-- State threaded through the `for key, value in record.extra_fields.items()`
loop: the parts of `log_record` that the loop can touch. -/
structure ExtraState where
  eventType : Option PyVal
  eventDuration : Option PyVal
  error : Option ErrorObj
  labels : List (String × PyVal)
deriving Repr

/-- One iteration of the extra-fields loop of `EcsJsonFormatter.format`
(lines 137-156 of `app.py`).  `event_type` and `duration_ms` always update the
`event` sub-object (which always exists in the base record); `error_type` is
promoted only when no `error` object exists yet; `error_details` is promoted
only when an `error` object already exists; every other case lands in the
`labels` bag. -/
def applyExtra (st : ExtraState) (kv : String × PyVal) : Except String ExtraState :=
  let key := kv.1
  let value := kv.2
  if key == "event_type" then
    .ok { st with eventType := some value }
  else if key == "error_type" && st.error.isNone then
    .ok { st with error := some ⟨some value, Option.none, Option.none⟩ }
  else if key == "error_details" && st.error.isSome then
    .ok { st with error := st.error.map fun e => { e with errMessage := some value } }
  else if key == "duration_ms" then
    match pyMulNat value 1000000 with
    | .ok ns => .ok { st with eventDuration := some ns }
    | .error e => .error e
  else
    .ok { st with labels := st.labels ++ [(key, value)] }

/-- The whole extra-fields loop. -/
def foldExtras (st : ExtraState) : List (String × PyVal) → Except String ExtraState
  | [] => .ok st
  | kv :: rest =>
    match applyExtra st kv with
    | .ok st2 => foldExtras st2 rest
    | .error e => .error e

/-- Python `os.path.basename`: everything after the last path separator. -/
def osPathBasename (p : String) : String :=
  ((p.splitOn "/").getLast?).getD p

/-- Lower-case hexadecimal rendering of `n` left-padded with zeros to `width`
digits, the Lean counterpart of Python's `format(n, '032x')` / `'016x'`. -/
def hexPad (width : Nat) (n : Nat) : String :=
  let s := (Nat.toDigits 16 n).asString
  String.mk (List.replicate (width - s.length) '0') ++ s

/-- Initial state of the extra-fields loop: the `error` sub-object is already
populated when `record.exc_info` is set (app.py lines 124-134), which is what
makes the later `error_type` / `error_details` promotions conditional. -/
def initExtraState (record : LogRecord) : ExtraState :=
  { eventType := Option.none
    eventDuration := Option.none
    error := record.excInfo.map fun e =>
      ⟨some (.str e.excType), some (.str e.excMessage), some e.excStackTrace⟩
    labels := [] }

/-- The exception block plus the extra-fields loop of
`EcsJsonFormatter.format` (app.py lines 123-156). -/
def formatExtras (record : LogRecord) : Except String ExtraState :=
  match record.extra_fields with
  | Option.none => .ok (initExtraState record)
  | some fields => foldExtras (initExtraState record) fields

/-- Shallow embedding of `EcsJsonFormatter.format` (app.py lines 26-158).
`now` is the value of `datetime.datetime.utcnow().isoformat() + "Z"` at the
time of the call.  The result is the `log_record` dictionary handed to
`json.dumps`; the only step that can raise inside the construction is the
`value * 1000000` multiplication for a `duration_ms` extra field. -/
def EcsJsonFormatter.format (record : LogRecord) (ctx : FormatCtx) (now : String) :
    Except String EcsRecord :=
  (formatExtras record).map fun st =>
    { atTimestamp := now
      ecsVersion := "1.12.0"
      logLevel := record.levelname.toLower
      logLogger := record.name
      originFile := osPathBasename record.pathname
      originLine := record.lineno
      originFunction := record.funcName
      message := record.message
      processPid := record.processPid
      threadId := record.threadId
      threadName := record.threadName
      hostname := ctx.hostname
      osPlatform := ctx.osPlatform
      osVersion := ctx.osVersion
      osName := ctx.osPlatform
      serviceName := "otel-demo-app"
      serviceVersion := "1.0.0"
      serviceEnv := ctx.deploymentEnv
      eventCreated := now
      eventModule := record.module
      eventType := st.eventType
      eventDuration := st.eventDuration
      traceId := ctx.spanCtx.map fun c => hexPad 32 c.1
      spanId := ctx.spanCtx.map fun c => hexPad 16 c.2
      transactionId := ctx.request_id
      http :=
        match ctx.request_id, ctx.httpReq with
        | some _, some req =>
          some ⟨req.method, req.contentLength.getD 0, req.path, req.queryString, req.url⟩
        | _, _ => Option.none
      client :=
        match ctx.request_id, ctx.httpReq with
        | some _, some req =>
          some ⟨req.xForwardedFor.getD req.remoteAddr, req.userAgent.getD "Unknown"⟩
        | _, _ => Option.none
      error := st.error
      labels := st.labels }

/-- Arguments of one `logger.<level>(message, extra={"extra_fields": ...})`
call made by the application. -/
structure LogCall where
  level : String
  message : String
  extra_fields : List (String × PyVal)
deriving Repr

/-- One telemetry emission of the request pipeline, in chronological order:
metric-instrument calls, logger calls, and span lifecycle operations. -/
inductive Telemetry where
  | counterAdd (instrument : String) (labels : List (String × String))
  | histRecord (instrument : String) (value : ℚ) (labels : List (String × String))
  | logCall (call : LogCall)
  | spanStart (name : String)
  | spanSetAttr (key : String) (value : PyVal)
  | spanSetStatusError
  | spanRecordException (message : String)
  | spanEnd (name : String)
deriving Repr

/-- The Flask `g` object after `before_request`: per-request correlation id
and start time. -/
structure GCtx where
  request_id : String
  start_time : ℚ
deriving Repr, DecidableEq

/-- Host/runtime descriptors and wall-clock readings that the handlers
consult: `platform.*`, `os.sysconf`, `os.getloadavg`, and
`datetime.datetime.utcnow().isoformat() + "Z"` (`nowIso` for "now",
`isoMinusDays k` for "now minus `k` days"). -/
structure Env where
  pythonVersion : String
  platformDesc : String
  virtualMemoryGb : ℚ
  availableMemoryGb : ℚ
  systemLoad : ℚ
  nowIso : String
  isoMinusDays : Nat → String

/-- An HTTP response as built by `jsonify(...)` plus an explicit status code
(Flask defaults to 200 when none is given). -/
structure Response where
  statusCode : Nat
  headers : List (String × String)
  body : List (String × PyVal)
deriving Repr

/-- Round half to even at integer precision, the rounding used by Python's
`round` and string formatting. -/
def roundHalfEven (q : ℚ) : Int :=
  let f := ⌊q⌋
  let r := q - f
  if r < 1/2 then f else if 1/2 < r then f + 1 else if f % 2 = 0 then f else f + 1

/-- Python `round(q, 2)`. -/
def pyRound2 (q : ℚ) : ℚ :=
  (roundHalfEven (q * 100) : ℚ) / 100

/-- Python `f"{q:.3f}"`: fixed-point rendering with three decimals. -/
def fmtQ3 (q : ℚ) : String :=
  let n := roundHalfEven (q * 1000)
  let ip := n / 1000
  let fp := (n % 1000).toNat
  let fs := toString fp
  toString ip ++ "." ++ String.mk (List.replicate (3 - fs.length) '0') ++ fs

/-- Shallow embedding of the `before_request` hook (app.py lines 218-240):
generate a fresh correlation id, record the start time, and emit the
"request received" log.  `freshUuid` is the value of `str(uuid.uuid4())`. -/
def before_request (freshUuid : String) (now : ℚ) (req : HttpReq)
    (args headersList : List (String × PyVal)) : GCtx × LogCall :=
  let g : GCtx := { request_id := freshUuid, start_time := now }
  (g,
   { level := "info"
     message := "Request received: " ++ req.method ++ " " ++ req.path
     extra_fields := [
       ("request_id", .str g.request_id),
       ("method", .str req.method),
       ("path", .str req.path),
       ("ip", .str (req.xForwardedFor.getD req.remoteAddr)),
       ("user_agent", .str (req.userAgent.getD "Unknown")),
       ("query_params", .obj args),
       ("request_headers", .obj headersList),
       ("event_type", .str "request_received")] })

/-- Shallow embedding of the `after_request` hook (app.py lines 242-260):
emit the "response sent" log and hand the response back.  `bodyBytes` is
`len(response.get_data(as_text=False))`, taken as a parameter because the
embedding does not model HTTP body serialization. -/
def after_request (response : Response) (g : GCtx) (req : HttpReq) (now : ℚ)
    (bodyBytes : Nat) : Response × LogCall :=
  let duration := now - g.start_time
  (response,
   { level := "info"
     message := "Response sent: " ++ toString response.statusCode
     extra_fields := [
       ("request_id", .str g.request_id),
       ("status_code", .int response.statusCode),
       ("duration_ms", .num (pyRound2 (duration * 1000))),
       ("response_size_bytes", .int bodyBytes),
       ("event_type", .str "response_sent"),
       ("path", .str req.path)] })

/-- Error-kind catalog of the `/` endpoint (app.py line 309). -/
def helloErrorTypes : List String :=
  ["database_error", "timeout_error", "validation_error", "authentication_error"]

/-- Fixed message text per error kind for the `/` endpoint
(app.py lines 310-315). -/
def helloErrorDetails : List (String × String) :=
  [("database_error", "Failed to connect to database after 3 retries"),
   ("timeout_error", "External API call timed out after 5000ms"),
   ("validation_error", "Required parameter 'transaction_id' was missing or invalid"),
   ("authentication_error", "Invalid or expired session token")]

/-- The `random.*` draws consumed by one run of the `/` handler, plus the
measured elapsed time (`time.time() - start_time`) at the histogram-recording
point.  `errRoll` is `random.randint(1, 10)`; `errChoice` indexes
`random.choice` over `helloErrorTypes`. -/
structure HelloDraws where
  processing_time : ℚ
  errRoll : Nat
  errChoice : Nat
  db_connections : Nat
  cache_hit_ratio : ℚ
  elapsed : ℚ
deriving Repr, DecidableEq

/-- Shallow embedding of the `/` handler `hello` (app.py lines 262-372). -/
def hello (d : HelloDraws) (g : GCtx) (env : Env) : Response × List Telemetry :=
  let preEvents : List Telemetry := [
    .logCall { level := "debug", message := "Processing root endpoint request",
               extra_fields := [
                 ("request_id", .str g.request_id),
                 ("endpoint", .str "root"),
                 ("event_type", .str "processing_started")] },
    .counterAdd "app_request_count" [("endpoint", "root"), ("method", "GET")],
    .logCall { level := "info", message := "Application runtime details",
               extra_fields := [
                 ("python_version", .str env.pythonVersion),
                 ("platform", .str env.platformDesc),
                 ("memory_info", .obj [
                   ("virtual_memory", .num env.virtualMemoryGb),
                   ("available_memory", .num env.availableMemoryGb)]),
                 ("event_type", .str "runtime_info")] },
    .logCall { level := "info",
               message := "Simulated processing delay of " ++ fmtQ3 d.processing_time ++ " seconds",
               extra_fields := [
                 ("request_id", .str g.request_id),
                 ("processing_time", .num d.processing_time),
                 ("event_type", .str "processing_delay")] }]
  if d.errRoll == 1 then
    let error_type := helloErrorTypes.getD d.errChoice ""
    let error_message := (helloErrorDetails.lookup error_type).getD ""
    ({ statusCode := 500
       headers := [("Content-Type", "application/json")]
       body := [
         ("error", .str "Random error occurred"),
         ("error_type", .str error_type),
         ("error_message", .str error_message),
         ("request_id", .str g.request_id)] },
     preEvents ++ [
       .counterAdd "app_error_count"
         [("endpoint", "root"), ("method", "GET"), ("error_type", error_type)],
       .logCall { level := "error",
                  message := "Error in root endpoint: " ++ error_message,
                  extra_fields := [
                    ("request_id", .str g.request_id),
                    ("error_type", .str error_type),
                    ("error_details", .str error_message),
                    ("endpoint", .str "root"),
                    ("event_type", .str "error_generated")] },
       .logCall { level := "debug",
                  message := "Diagnostic information for troubleshooting",
                  extra_fields := [
                    ("request_id", .str g.request_id),
                    ("system_load", .num env.systemLoad),
                    ("database_connections", .int d.db_connections),
                    ("cache_hit_ratio", .num d.cache_hit_ratio),
                    ("event_type", .str "error_diagnostics")] },
       .histRecord "app_response_time" d.elapsed
         [("endpoint", "root"), ("method", "GET"), ("status", "error")]])
  else
    ({ statusCode := 200
       headers := [("Content-Type", "application/json")]
       body := [
         ("message", .str "Hello from the OpenTelemetry Demo App!"),
         ("timestamp", .str env.nowIso),
         ("request_id", .str g.request_id)] },
     preEvents ++ [
       .histRecord "app_response_time" d.elapsed
         [("endpoint", "root"), ("method", "GET"), ("status", "success")],
       .logCall { level := "debug",
                  message := "Successfully processed root endpoint request",
                  extra_fields := [
                    ("request_id", .str g.request_id),
                    ("processing_time", .num d.elapsed),
                    ("event_type", .str "processing_completed")] }])

/-- Error-kind catalog of the `/api/data` endpoint (app.py lines 452-458). -/
def dataErrorTypes : List String :=
  ["connection_timeout", "record_not_found", "schema_validation_error",
   "permission_denied", "rate_limit_exceeded"]

/-- Fixed message text per error kind for the `/api/data` endpoint
(app.py lines 460-466). -/
def dataErrorDetails : List (String × String) :=
  [("connection_timeout", "Database connection timed out after 3 seconds"),
   ("record_not_found", "Requested record with ID 'txn-12345' was not found in the collection"),
   ("schema_validation_error", "Response payload failed schema validation: missing required field 'transaction_date'"),
   ("permission_denied", "User 'api-user' lacks permission 'READ_SENSITIVE_DATA' for this resource"),
   ("rate_limit_exceeded", "API rate limit of 100 requests per minute exceeded, retry after 24 seconds")]

/-- The synthetic stack snapshot logged with technical error details
(app.py lines 489-493). -/
def stackSnapshot : List PyVal :=
  [.obj [("function", .str "fetch_data_items"), ("line", .int 247), ("file", .str "data_service.py")],
   .obj [("function", .str "query_database"), ("line", .int 123), ("file", .str "database.py")],
   .obj [("function", .str "execute_query"), ("line", .int 89), ("file", .str "connection_pool.py")]]

/-- Item categories used by the sample-data generator (app.py line 526). -/
def categoryChoices : List String := ["electronics", "books", "clothing", "food"]

/-- Item statuses used by the sample-data generator (app.py line 528). -/
def statusChoices : List String := ["pending", "processed", "shipped", "delivered"]

/-- The `random.*` draws consumed when building one sample item
(app.py lines 521-529). -/
structure ItemDraw where
  idSuffix : Nat
  itemValue : Nat
  categoryChoice : Nat
  daysAgo : Nat
  statusChoice : Nat
deriving Repr, DecidableEq

/-- One sample item of the `/api/data` success body (app.py lines 522-529),
for loop index `i`. -/
def mkItem (env : Env) (i : Nat) (it : ItemDraw) : List (String × PyVal) :=
  [("id", .str ("item-" ++ toString i ++ "-" ++ toString it.idSuffix)),
   ("value", .int it.itemValue),
   ("name", .str ("Sample Item " ++ toString i)),
   ("category", .str (categoryChoices.getD it.categoryChoice "")),
   ("created_at", .str (env.isoMinusDays it.daysAgo)),
   ("status", .str (statusChoices.getD it.statusChoice ""))]

/-- The item-building loop `for i in range(random.randint(5, 15))`
(app.py lines 519-529); the drawn loop bound is `itemDraws.length`. -/
def mkItems (env : Env) : Nat → List ItemDraw → List PyVal
  | _, [] => []
  | i, it :: rest => .obj (mkItem env i it) :: mkItems env (i + 1) rest

/-- The `random.*` draws consumed by one run of the `/api/data` handler, plus
the measured elapsed time at the histogram-recording point.  `errRoll` is the
single `random.randint(1, 10)` error-injection roll (app.py line 451);
`errChoice` indexes `random.choice` over `dataErrorTypes`; `itemDraws` has
length `random.randint(5, 15)` and carries the per-item draws. -/
structure DataDraws where
  processing_time : ℚ
  rows_returned : Nat
  items_count : Nat
  cacheChoice : Nat
  sub_op_time : ℚ
  errRoll : Nat
  errChoice : Nat
  items_processed : Nat
  retry_count : Nat
  connId : Nat
  itemDraws : List ItemDraw
  total_pages : Nat
  elapsed : ℚ
deriving Repr, DecidableEq

/-- Shallow embedding of the `/api/data` handler `get_data`
(app.py lines 374-564).  The error-injection roll happens exactly once, inside
the nested `fetch-data-items` child span; the success continuation runs after
both spans have closed. -/
def get_data (d : DataDraws) (g : GCtx) (env : Env) : Response × List Telemetry :=
  let preEvents : List Telemetry := [
    .logCall { level := "info", message := "Processing data endpoint request",
               extra_fields := [
                 ("request_id", .str g.request_id),
                 ("endpoint", .str "api_data"),
                 ("event_type", .str "processing_started")] },
    .counterAdd "app_request_count" [("endpoint", "api_data"), ("method", "GET")],
    .spanStart "process-data",
    .spanSetAttr "component" (.str "data_processor"),
    .spanSetAttr "request_id" (.str g.request_id),
    .logCall { level := "debug", message := "Started data processing span",
               extra_fields := [
                 ("request_id", .str g.request_id),
                 ("span_name", .str "process-data"),
                 ("event_type", .str "span_started")] },
    .logCall { level := "info",
               message := "Database query executed in " ++ fmtQ3 d.processing_time ++ "s",
               extra_fields := [
                 ("request_id", .str g.request_id),
                 ("query_time", .num d.processing_time),
                 ("db_server", .str "postgres-primary"),
                 ("db_name", .str "otel_demo"),
                 ("query_type", .str "SELECT"),
                 ("rows_returned", .int d.rows_returned),
                 ("event_type", .str "database_query")] },
    .spanStart "fetch-data-items",
    .spanSetAttr "items_count" (.int d.items_count),
    .logCall { level := "debug",
               message := "Fetching " ++ toString d.items_count ++ " data items",
               extra_fields := [
                 ("request_id", .str g.request_id),
                 ("items_count", .int d.items_count),
                 ("cache_status", .str ((["hit", "miss"] : List String).getD d.cacheChoice "")),
                 ("event_type", .str "data_fetch")] },
    .logCall { level := "info",
               message := "Data items fetched in " ++ fmtQ3 d.sub_op_time ++ "s",
               extra_fields := [
                 ("request_id", .str g.request_id),
                 ("fetch_time", .num d.sub_op_time),
                 ("items_count", .int d.items_count),
                 ("event_type", .str "data_fetch_completed")] }]
  if d.errRoll == 1 then
    let error_type := dataErrorTypes.getD d.errChoice ""
    let error_message := (dataErrorDetails.lookup error_type).getD ""
    ({ statusCode := 500
       headers := [("Content-Type", "application/json")]
       body := [
         ("error", .str "Failed to process data"),
         ("error_type", .str error_type),
         ("error_message", .str error_message),
         ("request_id", .str g.request_id)] },
     preEvents ++ [
       .counterAdd "app_error_count"
         [("endpoint", "api_data"), ("method", "GET"), ("error_type", error_type)],
       .logCall { level := "error",
                  message := "Error fetching data items: " ++ error_message,
                  extra_fields := [
                    ("request_id", .str g.request_id),
                    ("error_type", .str error_type),
                    ("error_details", .str error_message),
                    ("source_component", .str "data_service"),
                    ("items_processed", .int d.items_processed),
                    ("retry_count", .int d.retry_count),
                    ("event_type", .str "data_fetch_error")] },
       .spanSetStatusError,
       .spanRecordException ("Failed to fetch data items: " ++ error_message),
       .logCall { level := "debug", message := "Technical error details",
                  extra_fields := [
                    ("request_id", .str g.request_id),
                    ("stack_snapshot", .list stackSnapshot),
                    ("connection_id", .str ("conn-" ++ toString d.connId)),
                    ("sql_state", .str (if error_type == "connection_timeout" then "08006" else "42P01")),
                    ("driver_version", .str "psycopg2 2.9.3"),
                    ("event_type", .str "technical_error_details")] },
       .histRecord "app_response_time" d.elapsed
         [("endpoint", "api_data"), ("method", "GET"), ("status", "error")],
       .spanEnd "fetch-data-items",
       .spanEnd "process-data"])
  else
    let items := mkItems env 0 d.itemDraws
    ({ statusCode := 200
       headers := [("Content-Type", "application/json")]
       body := [
         ("items", .list items),
         ("timestamp", .str env.nowIso),
         ("request_id", .str g.request_id),
         ("count", .int items.length),
         ("page", .int 1),
         ("total_pages", .int d.total_pages)] },
     preEvents ++ [
       .spanEnd "fetch-data-items",
       .spanEnd "process-data",
       .logCall { level := "info",
                  message := "Returning " ++ toString items.length ++ " data items",
                  extra_fields := [
                    ("request_id", .str g.request_id),
                    ("items_count", .int items.length),
                    ("categories", .list ((d.itemDraws.map fun it =>
                      categoryChoices.getD it.categoryChoice "").dedup.map PyVal.str)),
                    ("event_type", .str "data_returned")] },
       .histRecord "app_response_time" d.elapsed
         [("endpoint", "api_data"), ("method", "GET"), ("status", "success")],
       .logCall { level := "debug",
                  message := "Successfully processed data endpoint request",
                  extra_fields := [
                    ("request_id", .str g.request_id),
                    ("processing_time", .num d.elapsed),
                    ("event_type", .str "processing_completed")] }])

/-- Outcome of one `requests.get(url, timeout=5)` call: either an HTTP status
code or a raised transport exception (timeout, connection refused, ...). -/
inductive TransportOutcome where
  | ok (statusCode : Nat)
  | exn (message : String)
deriving Repr, DecidableEq

/-- The `requests.get` call as seen by `make_request`: returns the status code
or raises. -/
def requests_get (outcome : TransportOutcome) : Except String Nat :=
  match outcome with
  | .ok s => .ok s
  | .exn m => .error m

/-- Endpoints the load generator picks from (load_generator.py lines 24-27). -/
def lgEndpoints : List String := ["/", "/api/data"]

/-- A log line of the load generator. -/
structure LoadLogLine where
  level : String
  message : String
deriving Repr, DecidableEq

/-- Shallow embedding of `make_request` (load_generator.py lines 21-38):
issue one GET against a randomly chosen endpoint; on any exception, log an
error and return 0. -/
def make_request (appUrl : String) (endpointChoice : Nat)
    (outcome : TransportOutcome) : Nat × List LoadLogLine :=
  let endpoint := lgEndpoints.getD endpointChoice ""
  let url := appUrl ++ endpoint
  match requests_get outcome with
  | .ok status =>
    (status,
     [⟨"info", "Sending request to " ++ url⟩,
      ⟨"info", "Response from " ++ url ++ ": " ++ toString status⟩])
  | .error e =>
    (0,
     [⟨"info", "Sending request to " ++ url⟩,
      ⟨"error", "Error sending request to " ++ url ++ ": " ++ e⟩])

/-- Shallow embedding of the `worker` loop (load_generator.py lines 40-45),
run for as many iterations as there are scheduled outcomes: each iteration
calls `make_request` and continues; the returned list collects the per-request
status values. -/
def workerRun (appUrl : String) : List (Nat × TransportOutcome) → List Nat
  | [] => []
  | (choice, outcome) :: rest =>
    (make_request appUrl choice outcome).1 :: workerRun appUrl rest

/-- Labels of every observation recorded on the response-time histogram, in
order. -/
def histObservations (evs : List Telemetry) : List (List (String × String)) :=
  evs.filterMap fun e =>
    match e with
    | .histRecord _ _ labels => some labels
    | _ => none

/-- Labels of every increment of the error counter, in order. -/
def errorCounterAdds (evs : List Telemetry) : List (List (String × String)) :=
  evs.filterMap fun e =>
    match e with
    | .counterAdd instrument labels =>
      if instrument == "app_error_count" then some labels else none
    | _ => none

/-- Values of `duration_ms` for which Python's `value * 1000000` succeeds. -/
def mulOk : PyVal → Bool
  | .none => false
  | .obj _ => false
  | _ => true

/-- Record stripped of its two wall-clock fields (`@timestamp` and
`event.created`), for comparing two `format` outputs up to timestamps. -/
def stripTs (r : EcsRecord) : EcsRecord :=
  { r with atTimestamp := "", eventCreated := "" }

/-- Number of error-injection rolls, out of the ten possible values of the
single `random.randint(1, 10)` draw, on which `/api/data` takes the failure
path. -/
def dataFailCount (d : DataDraws) (g : GCtx) (env : Env) : Nat :=
  ((List.range' 1 10).filter fun r =>
    (get_data { d with errRoll := r } g env).1.statusCode == 500).length

/-- End-to-end failure probability of one `/api/data` request over the
uniform roll space `{1, ..., 10}` (all other draws held fixed). -/
def dataFailProb (d : DataDraws) (g : GCtx) (env : Env) : ℚ :=
  (dataFailCount d g env : ℚ) / 10

/-- Sample inputs used by the concrete witnesses below. -/
def sampleHttpReq : HttpReq :=
  { method := "GET", path := "/", queryString := "", url := "http://localhost:8080/",
    contentLength := Option.none, xForwardedFor := Option.none,
    remoteAddr := "127.0.0.1", userAgent := some "curl/8.4.0" }

def sampleCtx : FormatCtx :=
  { hostname := "demo-host", osPlatform := "Linux", osVersion := "6.1.0",
    deploymentEnv := "production", spanCtx := some (255, 16),
    request_id := some "6f1d2c", httpReq := some sampleHttpReq }

def sampleRecord (fields : Option (List (String × PyVal))) : LogRecord :=
  { levelname := "INFO", name := "otel-demo-app", pathname := "/app/app.py",
    lineno := 100, funcName := "hello", message := "a message", module := "app",
    processPid := 7, threadId := 1, threadName := "MainThread",
    excInfo := Option.none, extra_fields := fields }

def sampleEnv : Env :=
  { pythonVersion := "3.11.4", platformDesc := "Linux-6.1.0-x86_64",
    virtualMemoryGb := 16, availableMemoryGb := 8, systemLoad := 1/2,
    nowIso := "2024-01-01T00:00:00Z",
    isoMinusDays := fun k => "2023-12-0" ++ toString k ++ "T00:00:00Z" }

def sampleG : GCtx := { request_id := "6f1d2c", start_time := 100 }

def sampleHelloDraws : HelloDraws :=
  { processing_time := 1/10, errRoll := 1, errChoice := 0, db_connections := 7,
    cache_hit_ratio := 3/4, elapsed := 1/8 }

def sampleItemDraw : ItemDraw :=
  { idSuffix := 1234, itemValue := 42, categoryChoice := 0, daysAgo := 3,
    statusChoice := 1 }

def sampleDataDraws : DataDraws :=
  { processing_time := 1/5, rows_returned := 12, items_count := 20,
    cacheChoice := 0, sub_op_time := 1/10, errRoll := 2, errChoice := 0,
    items_processed := 5, retry_count := 1, connId := 4321,
    itemDraws := List.replicate 5 sampleItemDraw, total_pages := 3,
    elapsed := 1/4 }

theorem applyExtra_eventType_stable {st : ExtraState} {kv : String × PyVal}
    {st2 : ExtraState} (hkey : kv.1 ≠ "event_type")
    (h : applyExtra st kv = .ok st2) : st2.eventType = st.eventType := by
  simp only [applyExtra] at h
  split at h
  · next hc => exact absurd (by simpa using hc) hkey
  · split at h
    · cases h; rfl
    · split at h
      · cases h; rfl
      · split at h
        · split at h
          · cases h; rfl
          · cases h
        · cases h; rfl

theorem applyExtra_eventDuration_stable {st : ExtraState} {kv : String × PyVal}
    {st2 : ExtraState} (hkey : kv.1 ≠ "duration_ms")
    (h : applyExtra st kv = .ok st2) : st2.eventDuration = st.eventDuration := by
  simp only [applyExtra] at h
  split at h
  · cases h; rfl
  · split at h
    · cases h; rfl
    · split at h
      · cases h; rfl
      · split at h
        · next hc => exact absurd (by simpa using hc) hkey
        · cases h; rfl

theorem applyExtra_error_none {st : ExtraState} {kv : String × PyVal}
    {st2 : ExtraState} (he : st.error = Option.none) (hkey : kv.1 ≠ "error_type")
    (h : applyExtra st kv = .ok st2) : st2.error = Option.none := by
  simp only [applyExtra] at h
  split at h
  · cases h; exact he
  · next =>
    split at h
    · next hc =>
      have hc' : kv.1 = "error_type" ∧ st.error = Option.none := by simpa using hc
      exact absurd hc'.1 hkey
    · split at h
      · next hc =>
        have hc' : kv.1 = "error_details" ∧ st.error.isSome = true := by simpa using hc
        rw [he] at hc'
        exact absurd hc'.2 (by simp)
      · split at h
        · split at h
          · cases h; exact he
          · cases h
        · cases h; exact he

theorem applyExtra_error_some {st : ExtraState} {kv : String × PyVal}
    {st2 : ExtraState} {e : ErrorObj} (he : st.error = some e)
    (h : applyExtra st kv = .ok st2) :
    ∃ m, st2.error = some ⟨e.errType, m, e.stackTrace⟩ := by
  simp only [applyExtra] at h
  split at h
  · cases h; exact ⟨e.errMessage, by simp [he]⟩
  · split at h
    · next hc =>
      have hc' : kv.1 = "error_type" ∧ st.error = Option.none := by simpa using hc
      rw [he] at hc'
      cases hc'.2
    · split at h
      · cases h; exact ⟨some kv.2, by simp [he]⟩
      · split at h
        · split at h
          · cases h; exact ⟨e.errMessage, by simp [he]⟩
          · cases h
        · cases h; exact ⟨e.errMessage, by simp [he]⟩

theorem applyExtra_error_frozen {st : ExtraState} {kv : String × PyVal}
    {st2 : ExtraState} {e : ErrorObj} (he : st.error = some e)
    (hkey : kv.1 ≠ "error_details")
    (h : applyExtra st kv = .ok st2) : st2.error = some e := by
  simp only [applyExtra] at h
  split at h
  · cases h; exact he
  · split at h
    · next hc =>
      have hc' : kv.1 = "error_type" ∧ st.error = Option.none := by simpa using hc
      rw [he] at hc'
      cases hc'.2
    · split at h
      · next hc =>
        have hc' : kv.1 = "error_details" ∧ st.error.isSome = true := by simpa using hc
        exact absurd hc'.1 hkey
      · split at h
        · split at h
          · cases h; exact he
          · cases h
        · cases h; exact he

theorem applyExtra_labels_mono {st : ExtraState} {kv : String × PyVal}
    {st2 : ExtraState} (h : applyExtra st kv = .ok st2) :
    ∃ t, st2.labels = st.labels ++ t := by
  simp only [applyExtra] at h
  split at h
  · cases h; exact ⟨[], by simp⟩
  · split at h
    · cases h; exact ⟨[], by simp⟩
    · split at h
      · cases h; exact ⟨[], by simp⟩
      · split at h
        · split at h
          · cases h; exact ⟨[], by simp⟩
          · cases h
        · cases h; exact ⟨[(kv.1, kv.2)], rfl⟩

theorem applyExtra_event_type (st : ExtraState) (v : PyVal) :
    applyExtra st ("event_type", v) = .ok { st with eventType := some v } := rfl

theorem applyExtra_error_type {st : ExtraState} (v : PyVal)
    (he : st.error = Option.none) :
    applyExtra st ("error_type", v) =
      .ok { st with error := some ⟨some v, Option.none, Option.none⟩ } := by
  simp [applyExtra, he]

theorem applyExtra_error_details {st : ExtraState} {e : ErrorObj} (v : PyVal)
    (he : st.error = some e) :
    applyExtra st ("error_details", v) =
      .ok { st with error := some { e with errMessage := some v } } := by
  simp [applyExtra, he]

theorem applyExtra_error_details_none {st : ExtraState} (v : PyVal)
    (he : st.error = Option.none) :
    applyExtra st ("error_details", v) =
      .ok { st with labels := st.labels ++ [("error_details", v)] } := by
  simp [applyExtra, he]

theorem applyExtra_duration {st : ExtraState} {v w : PyVal}
    (hw : pyMulNat v 1000000 = .ok w) :
    applyExtra st ("duration_ms", v) = .ok { st with eventDuration := some w } := by
  simp [applyExtra, hw]

theorem applyExtra_duration_bad {st : ExtraState} {v : PyVal} {msg : String}
    (hw : pyMulNat v 1000000 = .error msg) :
    applyExtra st ("duration_ms", v) = .error msg := by
  simp [applyExtra, hw]

theorem pyMulNat_ok_of_mulOk {v : PyVal} (n : Nat) (h : mulOk v = true) :
    ∃ w, pyMulNat v n = .ok w := by
  cases v <;> simp_all [mulOk, pyMulNat]

theorem applyExtra_ok {st : ExtraState} {kv : String × PyVal}
    (h : kv.1 = "duration_ms" → mulOk kv.2 = true) :
    ∃ st2, applyExtra st kv = .ok st2 := by
  simp only [applyExtra]
  split
  · exact ⟨_, rfl⟩
  · split
    · exact ⟨_, rfl⟩
    · split
      · exact ⟨_, rfl⟩
      · split
        · next hc =>
          obtain ⟨w, hw⟩ := pyMulNat_ok_of_mulOk 1000000 (h (by simpa using hc))
          rw [hw]
          exact ⟨_, rfl⟩
        · exact ⟨_, rfl⟩

theorem foldExtras_append (l1 l2 : List (String × PyVal)) (st : ExtraState) :
    foldExtras st (l1 ++ l2) =
      match foldExtras st l1 with
      | .ok st1 => foldExtras st1 l2
      | .error e => .error e := by
  induction l1 generalizing st with
  | nil => rfl
  | cons kv rest ih =>
    simp only [List.cons_append, foldExtras]
    cases applyExtra st kv with
    | ok st2 => exact ih st2
    | error e => rfl

theorem foldExtras_eventType_stable {fields : List (String × PyVal)}
    {st st' : ExtraState} (hk : "event_type" ∉ fields.map Prod.fst)
    (h : foldExtras st fields = .ok st') : st'.eventType = st.eventType := by
  induction fields generalizing st with
  | nil => cases h; rfl
  | cons kv rest ih =>
    simp only [List.map_cons, List.mem_cons] at hk
    push_neg at hk
    simp only [foldExtras] at h
    cases happ : applyExtra st kv with
    | ok st2 =>
      rw [happ] at h
      rw [ih hk.2 h, applyExtra_eventType_stable (fun hc => hk.1 hc.symm) happ]
    | error e => rw [happ] at h; cases h

theorem foldExtras_eventDuration_stable {fields : List (String × PyVal)}
    {st st' : ExtraState} (hk : "duration_ms" ∉ fields.map Prod.fst)
    (h : foldExtras st fields = .ok st') : st'.eventDuration = st.eventDuration := by
  induction fields generalizing st with
  | nil => cases h; rfl
  | cons kv rest ih =>
    simp only [List.map_cons, List.mem_cons] at hk
    push_neg at hk
    simp only [foldExtras] at h
    cases happ : applyExtra st kv with
    | ok st2 =>
      rw [happ] at h
      rw [ih hk.2 h, applyExtra_eventDuration_stable (fun hc => hk.1 hc.symm) happ]
    | error e => rw [happ] at h; cases h

theorem foldExtras_error_none {fields : List (String × PyVal)}
    {st st' : ExtraState} (he : st.error = Option.none)
    (hk : "error_type" ∉ fields.map Prod.fst)
    (h : foldExtras st fields = .ok st') : st'.error = Option.none := by
  induction fields generalizing st with
  | nil => cases h; exact he
  | cons kv rest ih =>
    simp only [List.map_cons, List.mem_cons] at hk
    push_neg at hk
    simp only [foldExtras] at h
    cases happ : applyExtra st kv with
    | ok st2 =>
      rw [happ] at h
      exact ih (applyExtra_error_none he (fun hc => hk.1 hc.symm) happ) hk.2 h
    | error e => rw [happ] at h; cases h

theorem foldExtras_error_some {fields : List (String × PyVal)}
    {st st' : ExtraState} {e : ErrorObj} (he : st.error = some e)
    (h : foldExtras st fields = .ok st') :
    ∃ m, st'.error = some ⟨e.errType, m, e.stackTrace⟩ := by
  induction fields generalizing st e with
  | nil => cases h; exact ⟨e.errMessage, by simp [he]⟩
  | cons kv rest ih =>
    simp only [foldExtras] at h
    cases happ : applyExtra st kv with
    | ok st2 =>
      rw [happ] at h
      obtain ⟨m, hm⟩ := applyExtra_error_some he happ
      obtain ⟨m', hm'⟩ := ih hm h
      exact ⟨m', hm'⟩
    | error msg => rw [happ] at h; cases h

theorem foldExtras_error_frozen {fields : List (String × PyVal)}
    {st st' : ExtraState} {e : ErrorObj} (he : st.error = some e)
    (hk : "error_details" ∉ fields.map Prod.fst)
    (h : foldExtras st fields = .ok st') : st'.error = some e := by
  induction fields generalizing st with
  | nil => cases h; exact he
  | cons kv rest ih =>
    simp only [List.map_cons, List.mem_cons] at hk
    push_neg at hk
    simp only [foldExtras] at h
    cases happ : applyExtra st kv with
    | ok st2 =>
      rw [happ] at h
      exact ih (applyExtra_error_frozen he (fun hc => hk.1 hc.symm) happ) hk.2 h
    | error msg => rw [happ] at h; cases h

theorem foldExtras_labels_mono {fields : List (String × PyVal)}
    {st st' : ExtraState} {x : String × PyVal} (hx : x ∈ st.labels)
    (h : foldExtras st fields = .ok st') : x ∈ st'.labels := by
  induction fields generalizing st with
  | nil => cases h; exact hx
  | cons kv rest ih =>
    simp only [foldExtras] at h
    cases happ : applyExtra st kv with
    | ok st2 =>
      rw [happ] at h
      obtain ⟨t, ht⟩ := applyExtra_labels_mono happ
      exact ih (by rw [ht]; exact List.mem_append_left _ hx) h
    | error msg => rw [happ] at h; cases h

theorem applyExtra_duration_inv {st st2 : ExtraState} {v : PyVal}
    (h : applyExtra st ("duration_ms", v) = .ok st2) :
    ∃ w, pyMulNat v 1000000 = .ok w ∧ st2 = { st with eventDuration := some w } := by
  cases hm : pyMulNat v 1000000 with
  | ok w =>
    rw [applyExtra_duration hm] at h
    cases h
    exact ⟨w, rfl, rfl⟩
  | error msg =>
    rw [applyExtra_duration_bad hm] at h
    cases h

theorem foldExtras_eventType_promoted {fields : List (String × PyVal)}
    {st st' : ExtraState} {v : PyVal}
    (hnd : (fields.map Prod.fst).Nodup)
    (hmem : ("event_type", v) ∈ fields)
    (h : foldExtras st fields = .ok st') : st'.eventType = some v := by
  induction fields generalizing st with
  | nil => cases hmem
  | cons kv rest ih =>
    simp only [List.map_cons, List.nodup_cons] at hnd
    simp only [foldExtras] at h
    cases happ : applyExtra st kv with
    | error msg => rw [happ] at h; cases h
    | ok st2 =>
      rw [happ] at h
      rcases List.mem_cons.mp hmem with heq | hmem'
      · subst heq
        rw [applyExtra_event_type] at happ
        cases happ
        rw [foldExtras_eventType_stable hnd.1 h]
      · have hkey : kv.1 ≠ "event_type" := fun hc => by
          exact hnd.1 (hc ▸ List.mem_map_of_mem Prod.fst hmem')
        exact ih hnd.2 hmem' h

theorem foldExtras_duration_promoted {fields : List (String × PyVal)}
    {st st' : ExtraState} {v : PyVal}
    (hnd : (fields.map Prod.fst).Nodup)
    (hmem : ("duration_ms", v) ∈ fields)
    (h : foldExtras st fields = .ok st') :
    ∃ w, pyMulNat v 1000000 = .ok w ∧ st'.eventDuration = some w := by
  induction fields generalizing st with
  | nil => cases hmem
  | cons kv rest ih =>
    simp only [List.map_cons, List.nodup_cons] at hnd
    simp only [foldExtras] at h
    cases happ : applyExtra st kv with
    | error msg => rw [happ] at h; cases h
    | ok st2 =>
      rw [happ] at h
      rcases List.mem_cons.mp hmem with heq | hmem'
      · subst heq
        obtain ⟨w, hw, hst2⟩ := applyExtra_duration_inv happ
        subst hst2
        exact ⟨w, hw, foldExtras_eventDuration_stable hnd.1 h⟩
      · exact ih hnd.2 hmem' h

theorem foldExtras_errorType_promoted {fields : List (String × PyVal)}
    {st st' : ExtraState} {v : PyVal} (he : st.error = Option.none)
    (hnd : (fields.map Prod.fst).Nodup)
    (hmem : ("error_type", v) ∈ fields)
    (h : foldExtras st fields = .ok st') :
    ∃ e, st'.error = some e ∧ e.errType = some v := by
  induction fields generalizing st with
  | nil => cases hmem
  | cons kv rest ih =>
    simp only [List.map_cons, List.nodup_cons] at hnd
    simp only [foldExtras] at h
    cases happ : applyExtra st kv with
    | error msg => rw [happ] at h; cases h
    | ok st2 =>
      rw [happ] at h
      rcases List.mem_cons.mp hmem with heq | hmem'
      · subst heq
        rw [applyExtra_error_type _ he] at happ
        cases happ
        obtain ⟨m, hm⟩ := foldExtras_error_some rfl h
        exact ⟨_, hm, rfl⟩
      · have hkey : kv.1 ≠ "error_type" := fun hc => by
          exact hnd.1 (hc ▸ List.mem_map_of_mem Prod.fst hmem')
        exact ih (applyExtra_error_none he hkey happ) hnd.2 hmem' h

theorem foldExtras_errorDetails_labels {fields : List (String × PyVal)}
    {st st' : ExtraState} {v : PyVal} (he : st.error = Option.none)
    (hk : "error_type" ∉ fields.map Prod.fst)
    (hmem : ("error_details", v) ∈ fields)
    (h : foldExtras st fields = .ok st') : ("error_details", v) ∈ st'.labels := by
  induction fields generalizing st with
  | nil => cases hmem
  | cons kv rest ih =>
    simp only [List.map_cons, List.mem_cons] at hk
    push_neg at hk
    simp only [foldExtras] at h
    cases happ : applyExtra st kv with
    | error msg => rw [happ] at h; cases h
    | ok st2 =>
      rw [happ] at h
      rcases List.mem_cons.mp hmem with heq | hmem'
      · subst heq
        rw [applyExtra_error_details_none _ he] at happ
        cases happ
        exact foldExtras_labels_mono
          (List.mem_append_right _ (List.mem_singleton.mpr rfl)) h
      · exact ih (applyExtra_error_none he (fun hc => hk.1 hc.symm) happ) hk.2 hmem' h

theorem foldExtras_ok {fields : List (String × PyVal)}
    (hdur : ∀ v, ("duration_ms", v) ∈ fields → mulOk v = true) :
    ∀ st, ∃ st', foldExtras st fields = .ok st' := by
  induction fields with
  | nil => exact fun st => ⟨st, rfl⟩
  | cons kv rest ih =>
    intro st
    obtain ⟨st2, hst2⟩ := @applyExtra_ok st kv fun hk =>
      hdur kv.2 (by rw [← hk]; exact List.mem_cons_self _ _)
    obtain ⟨st', hst'⟩ := ih (fun v hv => hdur v (List.mem_cons_of_mem _ hv)) st2
    exact ⟨st', by rw [foldExtras, hst2]; exact hst'⟩

theorem format_ok_inv {record : LogRecord} {ctx : FormatCtx} {now : String}
    {out : EcsRecord} (h : EcsJsonFormatter.format record ctx now = .ok out) :
    ∃ st, formatExtras record = .ok st
      ∧ out.eventType = st.eventType
      ∧ out.eventDuration = st.eventDuration
      ∧ out.error = st.error
      ∧ out.labels = st.labels
      ∧ out.transactionId = ctx.request_id := by
  unfold EcsJsonFormatter.format at h
  cases hfe : formatExtras record with
  | ok st =>
    rw [hfe] at h
    simp only [Except.map] at h
    cases h
    exact ⟨st, rfl, rfl, rfl, rfl, rfl, rfl⟩
  | error e =>
    rw [hfe] at h
    simp only [Except.map] at h
    cases h

/-- C3: once `before_request` has assigned the correlation id, every log
record the encoder builds during that request carries that same id as
`transaction.id`: for any formatter context whose `g.request_id` is the one
assigned at request entry, every successfully formatted record has
`transactionId` equal to the generated UUID. -/
theorem C3_transaction_id_per_request (uuid : String) (t0 : ℚ) (req : HttpReq)
    (args headersList : List (String × PyVal)) (record : LogRecord)
    (ctx : FormatCtx) (now : String) (out : EcsRecord)
    (hctx : ctx.request_id =
      some (before_request uuid t0 req args headersList).1.request_id)
    (hout : EcsJsonFormatter.format record ctx now = .ok out) :
    out.transactionId = some uuid := by
  obtain ⟨st, _, _, _, _, _, htr⟩ := format_ok_inv hout
  rw [htr, hctx]
  rfl

theorem C3_witness :
    sampleCtx.request_id =
      some (before_request "6f1d2c" 100 sampleHttpReq [] []).1.request_id
    ∧ (EcsJsonFormatter.format (sampleRecord Option.none) sampleCtx
        "2024-01-01T00:00:00Z").map EcsRecord.transactionId = .ok (some "6f1d2c") := by
  refine ⟨rfl, ?_⟩
  cases hfmt : EcsJsonFormatter.format (sampleRecord Option.none) sampleCtx
      "2024-01-01T00:00:00Z" with
  | ok out =>
    have := C3_transaction_id_per_request "6f1d2c" 100 sampleHttpReq [] []
      (sampleRecord Option.none) sampleCtx "2024-01-01T00:00:00Z" out rfl hfmt
    simp only [Except.map]
    rw [this]
  | error e =>
    have hok : (EcsJsonFormatter.format (sampleRecord Option.none) sampleCtx
        "2024-01-01T00:00:00Z").isOk = true := rfl
    rw [hfmt] at hok
    cases hok

/-- C7: the log encoder is deterministic in everything except the wall clock:
two `format` calls on the same record with the same correlation/span context
produce identical JSON records apart from the two timestamp fields
(`@timestamp` and `event.created`). -/
theorem C7_format_deterministic_modulo_timestamp (record : LogRecord)
    (ctx : FormatCtx) (t1 t2 : String) :
    (EcsJsonFormatter.format record ctx t1).map stripTs =
      (EcsJsonFormatter.format record ctx t2).map stripTs := by
  unfold EcsJsonFormatter.format
  cases hfe : formatExtras record <;> rfl

theorem foldExtras_error_msg_none {fields : List (String × PyVal)}
    {st st' : ExtraState} (he : st.error = Option.none)
    (hk : "error_details" ∉ fields.map Prod.fst)
    (h : foldExtras st fields = .ok st') :
    ∀ e, st'.error = some e → e.errMessage = Option.none := by
  induction fields generalizing st with
  | nil =>
    cases h
    intro e hee
    rw [he] at hee
    cases hee
  | cons kv rest ih =>
    simp only [List.map_cons, List.mem_cons] at hk
    push_neg at hk
    simp only [foldExtras] at h
    cases happ : applyExtra st kv with
    | error msg => rw [happ] at h; cases h
    | ok st2 =>
      rw [happ] at h
      by_cases hkt : kv.1 = "error_type"
      · obtain ⟨a, b⟩ := kv
        dsimp at hkt
        subst hkt
        rw [applyExtra_error_type b he] at happ
        cases happ
        intro e hee
        have hfr := (foldExtras_error_frozen rfl hk.2 h).symm.trans hee
        injection hfr with hfr
        rw [← hfr]
      · exact ih (applyExtra_error_none he hkt happ) hk.2 h

/-- C4 (amended): for a `format` call without exception info and with each
recognized key supplied at most once, `event_type` is promoted into
`event.type`, `duration_ms` into `event.duration` multiplied by 1,000,000,
and `error_type` into `error.type`; `error_details` is promoted into
`error.message` only when an `error` object already exists, i.e. when
`error_type` precedes it among the supplied fields — an `error_details` not
preceded by an `error_type` lands in the `labels` bag instead (even when an
`error_type` appears later among the fields), and in that case no
`error.message` is produced from it. -/
theorem C4_recognized_field_promotion (record : LogRecord) (ctx : FormatCtx)
    (now : String) (fields : List (String × PyVal)) (out : EcsRecord)
    (hexc : record.excInfo = Option.none)
    (hfields : record.extra_fields = some fields)
    (hnd : (fields.map Prod.fst).Nodup)
    (hout : EcsJsonFormatter.format record ctx now = .ok out) :
    (∀ v, ("event_type", v) ∈ fields → out.eventType = some v)
    ∧ (∀ v, ("duration_ms", v) ∈ fields →
        ∃ w, pyMulNat v 1000000 = .ok w ∧ out.eventDuration = some w)
    ∧ (∀ v, ("error_type", v) ∈ fields →
        ∃ e, out.error = some e ∧ e.errType = some v)
    ∧ (∀ v l1 l2, fields = l1 ++ ("error_details", v) :: l2 →
        "error_type" ∈ l1.map Prod.fst →
        ∃ e, out.error = some e ∧ e.errMessage = some v)
    ∧ (∀ v l1 l2, fields = l1 ++ ("error_details", v) :: l2 →
        "error_type" ∉ l1.map Prod.fst →
        ("error_details", v) ∈ out.labels
        ∧ ∀ e, out.error = some e → e.errMessage = Option.none) := by
  obtain ⟨st, hfe, hET, hED, hERR, hLAB, _⟩ := format_ok_inv hout
  have hfold : foldExtras (initExtraState record) fields = .ok st := by
    unfold formatExtras at hfe
    rw [hfields] at hfe
    exact hfe
  have hinit : (initExtraState record).error = Option.none := by
    simp [initExtraState, hexc]
  refine ⟨?_, ?_, ?_, ?_, ?_⟩
  · intro v hv
    rw [hET]
    exact foldExtras_eventType_promoted hnd hv hfold
  · intro v hv
    rw [hED]
    exact foldExtras_duration_promoted hnd hv hfold
  · intro v hv
    rw [hERR]
    exact foldExtras_errorType_promoted hinit hnd hv hfold
  · intro v l1 l2 hsplit hin
    subst hsplit
    have hnd' := hnd
    rw [List.map_append, List.nodup_append] at hnd'
    obtain ⟨hnd1, hnd2, hdisj⟩ := hnd'
    rw [foldExtras_append] at hfold
    cases h1 : foldExtras (initExtraState record) l1 with
    | error e => rw [h1] at hfold; cases hfold
    | ok st1 =>
      rw [h1] at hfold
      obtain ⟨x, hxmem, hx1⟩ := List.mem_map.mp hin
      obtain ⟨a, b⟩ := x
      dsimp at hx1
      subst hx1
      obtain ⟨e1, he1, _⟩ := foldExtras_errorType_promoted hinit hnd1 hxmem h1
      simp only [foldExtras] at hfold
      rw [applyExtra_error_details v he1] at hfold
      have hnotl2 : "error_details" ∉ l2.map Prod.fst := by
        have := List.nodup_cons.mp hnd2
        simpa using this.1
      rw [hERR]
      exact ⟨_, foldExtras_error_frozen rfl hnotl2 hfold, rfl⟩
  · intro v l1 l2 hsplit hnoet
    subst hsplit
    have hnd' := hnd
    rw [List.map_append, List.nodup_append] at hnd'
    obtain ⟨hnd1, hnd2, hdisj⟩ := hnd'
    rw [foldExtras_append] at hfold
    cases h1 : foldExtras (initExtraState record) l1 with
    | error e => rw [h1] at hfold; cases hfold
    | ok st1 =>
      rw [h1] at hfold
      have hst1 : st1.error = Option.none := foldExtras_error_none hinit hnoet h1
      simp only [foldExtras] at hfold
      rw [applyExtra_error_details_none v hst1] at hfold
      have hnotl2 : "error_details" ∉ l2.map Prod.fst := by
        have := List.nodup_cons.mp hnd2
        simpa using this.1
      constructor
      · rw [hLAB]
        exact foldExtras_labels_mono
          (List.mem_append_right _ (List.mem_singleton.mpr rfl)) hfold
      · have hfold2 : foldExtras
            { st1 with labels := st1.labels ++ [("error_details", v)] } l2 = .ok st :=
          hfold
        intro e hee
        rw [hERR] at hee
        exact @foldExtras_error_msg_none l2
          { st1 with labels := st1.labels ++ [("error_details", v)] } st
          hst1 hnotl2 hfold2 e hee

/-- C4 counterexample: an `error_details` field supplied without any
`error_type` (and no exception info) is not promoted into `error.message` —
the `error` sub-object stays absent and the pair lands in the `labels` bag,
contradicting the claim that each recognized field is promoted rather than
placed in labels. -/
theorem C4_counterexample :
    (EcsJsonFormatter.format
        (sampleRecord (some [("error_details", PyVal.str "boom")])) sampleCtx
        "2024-01-01T00:00:00Z").map EcsRecord.error = .ok Option.none
    ∧ (EcsJsonFormatter.format
        (sampleRecord (some [("error_details", PyVal.str "boom")])) sampleCtx
        "2024-01-01T00:00:00Z").map EcsRecord.labels =
      .ok [("error_details", PyVal.str "boom")] := ⟨rfl, rfl⟩

/-- Concrete extra-fields mapping exercising all four recognized keys, with
`error_type` preceding `error_details`. -/
def c4Fields : List (String × PyVal) :=
  [("error_type", PyVal.str "db"), ("error_details", PyVal.str "boom"),
   ("event_type", PyVal.str "x"), ("duration_ms", PyVal.int 2)]

theorem C4_witness :
    (EcsJsonFormatter.format (sampleRecord (some c4Fields)) sampleCtx
        "2024-01-01T00:00:00Z").map EcsRecord.eventType = .ok (some (PyVal.str "x"))
    ∧ (EcsJsonFormatter.format (sampleRecord (some c4Fields)) sampleCtx
        "2024-01-01T00:00:00Z").map EcsRecord.eventDuration =
      .ok (some (PyVal.int 2000000))
    ∧ (EcsJsonFormatter.format (sampleRecord (some c4Fields)) sampleCtx
        "2024-01-01T00:00:00Z").map (fun o => o.error.map ErrorObj.errType) =
      .ok (some (some (PyVal.str "db")))
    ∧ (EcsJsonFormatter.format (sampleRecord (some c4Fields)) sampleCtx
        "2024-01-01T00:00:00Z").map (fun o => o.error.map ErrorObj.errMessage) =
      .ok (some (some (PyVal.str "boom"))) := by
  cases hfmt : EcsJsonFormatter.format (sampleRecord (some c4Fields)) sampleCtx
      "2024-01-01T00:00:00Z" with
  | error e =>
    have hok : (EcsJsonFormatter.format (sampleRecord (some c4Fields)) sampleCtx
        "2024-01-01T00:00:00Z").isOk = true := rfl
    rw [hfmt] at hok
    cases hok
  | ok out =>
    obtain ⟨hA, hB, hC, hD, _⟩ := C4_recognized_field_promotion
      (sampleRecord (some c4Fields)) sampleCtx "2024-01-01T00:00:00Z" c4Fields out
      rfl rfl (by decide) hfmt
    have h1 := hA (PyVal.str "x") (by simp [c4Fields])
    obtain ⟨w, hw, h2⟩ := hB (PyVal.int 2) (by simp [c4Fields])
    have hw2 : (Except.ok w : Except String PyVal) = .ok (PyVal.int 2000000) :=
      hw.symm.trans rfl
    injection hw2 with hw3
    subst hw3
    obtain ⟨e1, he1, h3⟩ := hC (PyVal.str "db") (by simp [c4Fields])
    obtain ⟨e2, he2, h4⟩ := hD (PyVal.str "boom") [("error_type", PyVal.str "db")]
      [("event_type", PyVal.str "x"), ("duration_ms", PyVal.int 2)] rfl (by simp)
    have he12 : e1 = e2 := by
      have := he1.symm.trans he2
      injection this
    subst he12
    simp only [Except.map]
    exact ⟨by rw [h1], by rw [h2], by rw [he1]; simp [h3], by rw [he1]; simp [h4]⟩

/-- C6 (amended): building the structured log record never fails provided
every `duration_ms` value supplied in the extra fields is one Python can
multiply by an integer (number, boolean, string or list — anything except
`None` or a dict); with that restriction the construction is total.  The
restriction is needed because `format` computes `value * 1000000` on the raw
`duration_ms` value, which raises `TypeError` for `None` and dicts. -/
theorem C6_format_total (record : LogRecord) (ctx : FormatCtx) (now : String)
    (hdur : ∀ fields, record.extra_fields = some fields →
      ∀ v, ("duration_ms", v) ∈ fields → mulOk v = true) :
    (EcsJsonFormatter.format record ctx now).isOk = true := by
  unfold EcsJsonFormatter.format formatExtras
  cases hf : record.extra_fields with
  | none => rfl
  | some fields =>
    obtain ⟨st', hst'⟩ := foldExtras_ok (hdur fields hf) (initExtraState record)
    simp [hst', Except.map, Except.isOk, Except.toBool]

theorem C6_witness :
    (∀ fields,
        (sampleRecord (some [("duration_ms", PyVal.num (123 / 10))])).extra_fields =
          some fields →
        ∀ v, ("duration_ms", v) ∈ fields → mulOk v = true)
    ∧ (EcsJsonFormatter.format
        (sampleRecord (some [("duration_ms", PyVal.num (123 / 10))])) sampleCtx
        "2024-01-01T00:00:00Z").isOk = true := by
  have hdur : ∀ fields,
      (sampleRecord (some [("duration_ms", PyVal.num (123 / 10))])).extra_fields =
        some fields →
      ∀ v, ("duration_ms", v) ∈ fields → mulOk v = true := by
    intro fields hf v hv
    cases hf
    simp only [List.mem_singleton] at hv
    cases hv
    rfl
  exact ⟨hdur, C6_format_total
    (sampleRecord (some [("duration_ms", PyVal.num (123 / 10))])) sampleCtx
    "2024-01-01T00:00:00Z" hdur⟩

/-- C6 counterexample: the record-construction step is not total — a
`duration_ms` extra field holding `None` makes the `value * 1000000`
multiplication raise `TypeError` inside `format`, so building the record
fails for this input. -/
theorem C6_counterexample :
    (EcsJsonFormatter.format
        (sampleRecord (some [("duration_ms", PyVal.none)])) sampleCtx
        "2024-01-01T00:00:00Z").isOk = false := rfl

theorem mkItems_length (env : Env) (i : Nat) (l : List ItemDraw) :
    (mkItems env i l).length = l.length := by
  induction l generalizing i with
  | nil => rfl
  | cons it rest ih => simp [mkItems, ih]

theorem get_data_statusCode (d : DataDraws) (g : GCtx) (env : Env) :
    (get_data d g env).1.statusCode = if d.errRoll = 1 then 500 else 200 := by
  by_cases h : d.errRoll = 1
  · simp [get_data, h]
  · simp [get_data, h]

theorem get_data_fail_iff (d : DataDraws) (g : GCtx) (env : Env) (r : Nat) :
    (get_data { d with errRoll := r } g env).1.statusCode = 500 ↔ r = 1 := by
  rw [get_data_statusCode]
  by_cases h : r = 1 <;> simp [h]

theorem dataFailCount_eq (d : DataDraws) (g : GCtx) (env : Env) :
    dataFailCount d g env = 1 := by
  unfold dataFailCount
  have hpt : ∀ r ∈ List.range' 1 10,
      ((get_data { d with errRoll := r } g env).1.statusCode == 500) = (r == 1) := by
    intro r _
    rw [Bool.eq_iff_iff]
    simp [get_data_fail_iff]
  rw [List.filter_congr hpt]
  rfl

/-- C1 (amended): for `/api/data` the error injection is rolled exactly once —
the single `random.randint(1, 10)` inside the nested `fetch-data-items` child
span — there is no second, outer-level roll.  A request fails iff that one
roll equals 1, so the effective end-to-end failure probability over the
uniform roll space is exactly 1/10, not 1 - (9/10)^2 = 0.19. -/
theorem C1_data_failure_probability (d : DataDraws) (g : GCtx) (env : Env) :
    dataFailProb d g env = 1 / 10
    ∧ ∀ r, ((get_data { d with errRoll := r } g env).1.statusCode = 500 ↔ r = 1) := by
  refine ⟨?_, fun r => get_data_fail_iff d g env r⟩
  rw [dataFailProb, dataFailCount_eq]
  norm_num

/-- C1 counterexample: at a concrete draw vector the end-to-end failure
probability of `/api/data` computed from the code is not 0.19. -/
theorem C1_counterexample :
    dataFailProb sampleDataDraws sampleG sampleEnv ≠ 19 / 100 := by
  rw [dataFailProb, dataFailCount_eq]
  norm_num

/-- C10: the `after_request` hook returns the very response object it was
given — status code, headers, and body unchanged; emitting the
"response sent" log has no effect on the response delivered to the client. -/
theorem C10_after_request_returns_response_unchanged (response : Response)
    (g : GCtx) (req : HttpReq) (now : ℚ) (bodyBytes : Nat) :
    (after_request response g req now bodyBytes).1 = response := rfl

/-- C8: every transport-layer failure of a load-generator request is caught
inside `make_request`, logged at error level, and mapped to the return value
0; the worker loop never terminates early or propagates the exception — it
produces one status per scheduled iteration. -/
theorem C8_transport_failures_are_swallowed (appUrl : String)
    (schedule : List (Nat × TransportOutcome)) (choice : Nat) (emsg : String) :
    (workerRun appUrl schedule).length = schedule.length
    ∧ (make_request appUrl choice (.exn emsg)).1 = 0
    ∧ ∃ line ∈ (make_request appUrl choice (.exn emsg)).2, line.level = "error" := by
  refine ⟨?_, rfl, ?_⟩
  · induction schedule with
    | nil => rfl
    | cons x rest ih =>
      obtain ⟨c, o⟩ := x
      simp [workerRun, ih]
  · exact ⟨_, List.mem_cons_of_mem _ (List.mem_cons_self _ _), rfl⟩

/-- C2: for every request to `/` or `/api/data`, on both the success and the
injected-error path, exactly one observation is recorded on the response-time
histogram, the request finishes with status 200 or 500, and the observation's
`status` label is `success` when the request returns 200 and `error` when it
returns 500. -/
theorem C2_one_histogram_observation_per_request (hd : HelloDraws) (gh : GCtx)
    (envh : Env) (dd : DataDraws) (gd : GCtx) (envd : Env) :
    ((histObservations (hello hd gh envh).2).length = 1
      ∧ ((hello hd gh envh).1.statusCode = 200 ∨ (hello hd gh envh).1.statusCode = 500)
      ∧ ((hello hd gh envh).1.statusCode = 200 →
          (histObservations (hello hd gh envh).2).map (List.lookup "status") =
            [some "success"])
      ∧ ((hello hd gh envh).1.statusCode = 500 →
          (histObservations (hello hd gh envh).2).map (List.lookup "status") =
            [some "error"]))
    ∧ ((histObservations (get_data dd gd envd).2).length = 1
      ∧ ((get_data dd gd envd).1.statusCode = 200
          ∨ (get_data dd gd envd).1.statusCode = 500)
      ∧ ((get_data dd gd envd).1.statusCode = 200 →
          (histObservations (get_data dd gd envd).2).map (List.lookup "status") =
            [some "success"])
      ∧ ((get_data dd gd envd).1.statusCode = 500 →
          (histObservations (get_data dd gd envd).2).map (List.lookup "status") =
            [some "error"])) := by
  constructor
  · by_cases h : hd.errRoll = 1 <;>
      simp [hello, h, histObservations, List.lookup]
  · by_cases h : dd.errRoll = 1 <;>
      simp [get_data, h, histObservations, List.lookup]

/-- C5: when the error-injection roll fires on `/`, the response is HTTP 500
and its body carries `error`, `error_type`, `error_message` and `request_id`;
the error kind is one of the four catalog kinds, the message is the fixed
catalog text for that kind, the error counter is incremented exactly once
with that kind as its `error_type` label, and the error-level log record
carries the same kind and message. -/
theorem C5_root_error_path (d : HelloDraws) (g : GCtx) (env : Env)
    (hroll : d.errRoll = 1) (hchoice : d.errChoice < 4) :
    (hello d g env).1.statusCode = 500
    ∧ (hello d g env).1.body.lookup "error" = some (PyVal.str "Random error occurred")
    ∧ (hello d g env).1.body.lookup "error_type" =
        some (PyVal.str (helloErrorTypes.getD d.errChoice ""))
    ∧ (hello d g env).1.body.lookup "error_message" =
        some (PyVal.str
          ((helloErrorDetails.lookup (helloErrorTypes.getD d.errChoice "")).getD ""))
    ∧ (hello d g env).1.body.lookup "request_id" = some (PyVal.str g.request_id)
    ∧ helloErrorTypes.getD d.errChoice "" ∈ helloErrorTypes
    ∧ helloErrorDetails.lookup (helloErrorTypes.getD d.errChoice "") =
        some ((helloErrorDetails.lookup (helloErrorTypes.getD d.errChoice "")).getD "")
    ∧ errorCounterAdds (hello d g env).2 =
        [[("endpoint", "root"), ("method", "GET"),
          ("error_type", helloErrorTypes.getD d.errChoice "")]]
    ∧ ∃ lc, Telemetry.logCall lc ∈ (hello d g env).2 ∧ lc.level = "error"
        ∧ ("error_type", PyVal.str (helloErrorTypes.getD d.errChoice ""))
            ∈ lc.extra_fields
        ∧ ("error_details", PyVal.str
            ((helloErrorDetails.lookup (helloErrorTypes.getD d.errChoice "")).getD ""))
            ∈ lc.extra_fields := by
  have hmem4 : ∀ n : Fin 4, helloErrorTypes.getD n.val "" ∈ helloErrorTypes := by
    decide
  have hmem := hmem4 ⟨d.errChoice, hchoice⟩
  have hlk4 : ∀ n : Fin 4,
      (helloErrorDetails.lookup (helloErrorTypes.getD n.val "")).isSome = true := by
    decide
  obtain ⟨m, hm⟩ := Option.isSome_iff_exists.mp (hlk4 ⟨d.errChoice, hchoice⟩)
  have hlk : helloErrorDetails.lookup (helloErrorTypes.getD d.errChoice "") =
      some ((helloErrorDetails.lookup (helloErrorTypes.getD d.errChoice "")).getD "") := by
    rw [hm]
    rfl
  refine ⟨?_, ?_, ?_, ?_, ?_, hmem, hlk, ?_, ?_⟩
  · simp [hello, hroll]
  · simp [hello, hroll, List.lookup]
  · simp [hello, hroll, List.lookup]
  · simp [hello, hroll, List.lookup]
  · simp [hello, hroll, List.lookup]
  · simp [hello, hroll, errorCounterAdds]
  · refine ⟨LogCall.mk "error"
      ("Error in root endpoint: " ++
        ((helloErrorDetails.lookup (helloErrorTypes.getD d.errChoice "")).getD ""))
      [("request_id", .str g.request_id),
       ("error_type", .str (helloErrorTypes.getD d.errChoice "")),
       ("error_details", .str
         ((helloErrorDetails.lookup (helloErrorTypes.getD d.errChoice "")).getD "")),
       ("endpoint", .str "root"),
       ("event_type", .str "error_generated")], ?_, rfl, ?_, ?_⟩
    · simp [hello, hroll]
    · simp
    · simp

theorem C5_witness :
    sampleHelloDraws.errRoll = 1 ∧ sampleHelloDraws.errChoice < 4
    ∧ (hello sampleHelloDraws sampleG sampleEnv).1.statusCode = 500
    ∧ (hello sampleHelloDraws sampleG sampleEnv).1.body.lookup "error_type" =
        some (PyVal.str "database_error")
    ∧ errorCounterAdds (hello sampleHelloDraws sampleG sampleEnv).2 =
        [[("endpoint", "root"), ("method", "GET"),
          ("error_type", "database_error")]] := by
  have h := C5_root_error_path sampleHelloDraws sampleG sampleEnv rfl (by decide)
  exact ⟨rfl, by decide, h.1, h.2.2.1, h.2.2.2.2.2.2.2.1⟩

/-- C9: on every success path of `/api/data` the body's `items` list has
between 5 and 15 elements inclusive, `page` is always 1, `total_pages` is
between 1 and 5 inclusive (so `page ≤ total_pages`), and the response is
unchanged when the `items_count` draw (10 to 50, recorded on the child span)
is replaced by any other value — the number of returned items is unrelated to
it. -/
theorem C9_data_success_body_shape (d : DataDraws) (g : GCtx) (env : Env)
    (c : Nat) (h5 : 5 ≤ d.itemDraws.length) (h15 : d.itemDraws.length ≤ 15)
    (htp1 : 1 ≤ d.total_pages) (htp5 : d.total_pages ≤ 5)
    (herr : d.errRoll ≠ 1) :
    (∃ items, (get_data d g env).1.body.lookup "items" = some (PyVal.list items)
        ∧ 5 ≤ items.length ∧ items.length ≤ 15)
    ∧ (get_data d g env).1.body.lookup "page" = some (PyVal.int 1)
    ∧ (get_data d g env).1.body.lookup "total_pages" =
        some (PyVal.int d.total_pages)
    ∧ 1 ≤ d.total_pages ∧ d.total_pages ≤ 5
    ∧ (get_data { d with items_count := c } g env).1 = (get_data d g env).1 := by
  refine ⟨⟨mkItems env 0 d.itemDraws, ?_, ?_, ?_⟩, ?_, ?_, htp1, htp5, ?_⟩
  · simp [get_data, herr, List.lookup]
  · rw [mkItems_length]
    exact h5
  · rw [mkItems_length]
    exact h15
  · simp [get_data, herr, List.lookup]
  · simp [get_data, herr, List.lookup]
  · simp [get_data, herr]

theorem C9_witness :
    5 ≤ sampleDataDraws.itemDraws.length ∧ sampleDataDraws.itemDraws.length ≤ 15
    ∧ 1 ≤ sampleDataDraws.total_pages ∧ sampleDataDraws.total_pages ≤ 5
    ∧ sampleDataDraws.errRoll ≠ 1
    ∧ (get_data sampleDataDraws sampleG sampleEnv).1.body.lookup "page" =
        some (PyVal.int 1)
    ∧ (get_data { sampleDataDraws with items_count := 777 } sampleG sampleEnv).1 =
        (get_data sampleDataDraws sampleG sampleEnv).1 := by
  have h := C9_data_success_body_shape sampleDataDraws sampleG sampleEnv 777
    (by decide) (by decide) (by decide) (by decide) (by decide)
  exact ⟨by decide, by decide, by decide, by decide, by decide, h.2.1,
    h.2.2.2.2.2⟩
